import Mathlib

/-!
# BountyForge — shallow embedding and verification

A shallow embedding of the BountyForge Solana/Anchor program
(`programs/bountyforge/src/`): a bounty marketplace where a creator posts a
reward-bearing bounty backed by a token escrow, an agent submits a previously
attested solution hash, and the creator settles the bounty, releasing escrow
and crediting the agent's reputation.

Modelling conventions:
* `Pubkey` is `Nat`; `Pubkey::default()` (the all-zero key) is `0`.
* `u64` quantities are `Nat` with explicit `2^64` bounds where the Rust code
  uses `checked_add`.
* `[u8; 32]` solution hashes are `List Nat` (only compared for equality).
* Each Anchor instruction becomes a pure function
  `accounts → args → Except ProgError result`; the `run*` wrappers encode the
  ledger's all-or-nothing transaction semantics (an `Except.error` commits
  nothing, the pre-state is kept).
* Anchor `#[account(...)]` constraints run before the handler body, in their
  declaration order, each with its declared error code; the embedding inlines
  them as the leading guards of the instruction function.
-/

namespace BountyForge

/-- A Solana public key, modelled as a natural number; `0` models
`Pubkey::default()` (the all-zero key). -/
abbrev Pubkey := Nat

/-- A 32-byte solution hash (`[u8; 32]`); only ever compared for equality, so
the length bound is irrelevant to every claim. -/
abbrev SolutionHash := List Nat

/-- The largest value representable in a Rust `u64`. -/
def U64_MAX : Nat := 2 ^ 64 - 1

/-- Rust `u64::checked_add`: `some (a + b)` when the sum fits in a `u64`,
`none` on overflow. -/
def u64checkedAdd (a b : Nat) : Option Nat :=
  if a + b ≤ U64_MAX then some (a + b) else none

/-- All error codes the embedded instructions can raise: the program's own
`BountyForgeError` variants (`errors.rs`) plus the Anchor/SPL framework errors
the instructions rely on. -/
inductive ProgError where
  | BountyNotOpen
  | BountyAlreadySubmitted
  | SolutionHashMismatch
  | AttestationOwnerMismatch
  | ReputationScoreOverflow
  | BountyNotSubmitted
  | UnauthorizedSettlement
  | ReputationOwnerMismatch
  | ReputationOverflow
  | OracleVerificationFailed
  | OracleDataStale
  | ConstraintTokenMint
  | AccountNotInitialized
  | ConstraintRaw
  | AccountAlreadyInUse
  | TokenInsufficientFunds
  | TokenOverflow
  deriving DecidableEq, Repr

/-- Source `state/bounty.rs`: the bounty category tag. -/
inductive BountyType where
  | WalletIntelligence
  | TokenScreening
  deriving DecidableEq, Repr

/-- Source `state/bounty.rs`: the bounty lifecycle status. -/
inductive BountyStatus where
  | Open
  | Submitted
  | Settled
  deriving DecidableEq, Repr

/-- Source `state/bounty.rs`: the on-chain Bounty record. -/
structure Bounty where
  id : Nat
  bounty_type : BountyType
  description : String
  reward : Nat
  solution_hash : Option SolutionHash
  status : BountyStatus
  creator : Pubkey
  bump : Nat
  deriving DecidableEq, Repr

/-- Source `state/attestation.rs`: the on-chain Attestation record. -/
structure Attestation where
  solution_id : Nat
  solution_hash : SolutionHash
  timestamp : Int
  agent : Pubkey
  verified : Bool
  bump : Nat
  deriving DecidableEq, Repr

/-- Source `state/reputation.rs`: the on-chain Reputation record. -/
structure Reputation where
  agent : Pubkey
  score : Nat
  successful_bounties : Nat
  failed_bounties : Nat
  total_earned : Nat
  bump : Nat
  deriving DecidableEq, Repr

/-- The zeroed account contents Anchor's `init_if_needed` presents to the
handler when the reputation PDA did not exist before the call: all fields
zero, in particular `agent = Pubkey::default()`. -/
def zeroReputation : Reputation :=
  { agent := 0, score := 0, successful_bounties := 0, failed_bounties := 0
    total_earned := 0, bump := 0 }

/-- An unchecked `AccountInfo` as the instructions see it: its address and its
data length (`data_is_empty()` is `dataLen = 0`). -/
structure AccountInfo where
  key : Pubkey
  dataLen : Nat
  deriving DecidableEq, Repr

/-- An SPL `TokenAccount` with the fields the program reads. -/
structure TokenAccount where
  mint : Pubkey
  owner : Pubkey
  amount : Nat
  deriving DecidableEq, Repr

/-- ASCII lowercasing of a string, embedding Rust's `str::to_lowercase` (all
descriptions and trigger terms in play are ASCII, where the two coincide). -/
def toLowerString (s : String) : String :=
  ⟨s.data.map Char.toLower⟩

/-- Whether `needle` occurs as a contiguous sublist of `haystack`. -/
def listContainsSub (needle : List Char) : List Char → Bool
  | [] => needle.isEmpty
  | c :: t => needle.isPrefixOf (c :: t) || listContainsSub needle t

/-- Rust `str::contains(pat)` for a string pattern: substring occurrence. -/
def strContainsSub (haystack needle : String) : Bool :=
  listContainsSub needle.data haystack.data

/-- Source `instructions/submit_solution.rs`: the accounts of the `SubmitSolution`
instruction. `reputation = none` models a reputation PDA that does not exist
yet (Anchor `init_if_needed` zero-initializes it); `oracle` is the optional
Switchboard oracle account. -/
structure SubmitSolutionAccounts where
  agent : Pubkey
  bounty : Bounty
  attestation : Attestation
  reputation : Option Reputation
  oracle : Option AccountInfo

/-- Is the (optional) oracle account present but empty
(`oracle_account.data_is_empty()` inside the `if let Some` branch)? -/
def oracleEmpty : Option AccountInfo → Bool
  | some o => o.dataLen == 0
  | none => false

/-- Source `instructions/submit_solution.rs`: the `SubmitSolution` account
constraints followed by the `submit_solution` handler body. The three leading
guards are the Anchor constraints on `bounty` and `attestation` (with their
`@` error codes); the rest mirrors the handler: the attestation-hash check,
the description-driven oracle gate, the bounty update, and the
create-or-increment reputation update with `checked_add`. -/
def submit_solution (accs : SubmitSolutionAccounts) (solution_hash : SolutionHash)
    (bump : Nat) : Except ProgError (Bounty × Reputation) :=
  if accs.bounty.status ≠ BountyStatus.Open then .error .BountyNotOpen
  else if accs.bounty.solution_hash ≠ none then .error .BountyAlreadySubmitted
  else if accs.attestation.agent ≠ accs.agent then .error .AttestationOwnerMismatch
  else
    let reputation := accs.reputation.getD zeroReputation
    if accs.attestation.solution_hash ≠ solution_hash then .error .SolutionHashMismatch
    else
      let description_lower := toLowerString accs.bounty.description
      let requires_oracle := strContainsSub description_lower "oracle"
        || strContainsSub description_lower "switchboard"
        || strContainsSub description_lower "price"
      if requires_oracle && accs.oracle.isNone then .error .OracleVerificationFailed
      else if requires_oracle && oracleEmpty accs.oracle then .error .OracleVerificationFailed
      else
        let bounty' : Bounty :=
          { accs.bounty with solution_hash := some solution_hash
                             status := BountyStatus.Submitted }
        if reputation.agent = 0 then
          .ok (bounty', { agent := accs.agent, score := 1, successful_bounties := 0
                          failed_bounties := 0, total_earned := 0, bump := bump })
        else if reputation.agent ≠ accs.agent then .error .ReputationOwnerMismatch
        else
          match u64checkedAdd reputation.score 1 with
          | none => .error .ReputationScoreOverflow
          | some s => .ok (bounty', { reputation with score := s })

/-- The on-ledger state a `SubmitSolution` transaction can write: the bounty
record and the agent's reputation record (absent before first submission). -/
structure SubmitLedger where
  bounty : Bounty
  reputation : Option Reputation
  deriving DecidableEq, Repr

/-- A `SubmitSolution` transaction against the ledger: on success both writes
commit together; on any error the substrate discards the transaction wholesale
and the pre-state is kept, with the error reported to the caller. -/
def runSubmit (st : SubmitLedger) (signer : Pubkey) (att : Attestation)
    (oracle : Option AccountInfo) (h : SolutionHash) (bump : Nat) :
    SubmitLedger × Option ProgError :=
  match submit_solution ⟨signer, st.bounty, att, st.reputation, oracle⟩ h bump with
  | .ok (b', r') => (⟨b', some r'⟩, none)
  | .error e => (st, some e)

/-- Modelled from the spec: the ledger substrate's deterministic sub-account
derivation ("a globally unique, recomputable address derived from stable keys
... plus a namespace tag", spec §9). The concrete PDA hash lives in the Solana
runtime outside this repository; an injective pairing with a namespace tag
stands in. Address of the bounty PDA derived from seeds
`[b"bounty", bounty_id.to_le_bytes()]`. -/
def bountyAddress (bounty_id : Nat) : Pubkey :=
  Nat.pair 1 bounty_id

/-- Modelled from the spec: the associated-token-account address derived
deterministically from `(wallet, mint)` by the trusted ATA program
(`anchor_spl::associated_token::get_associated_token_address`), which is
outside this repository; an injective pairing with a namespace tag stands
in. -/
def get_associated_token_address (wallet mint : Pubkey) : Pubkey :=
  Nat.pair 2 (Nat.pair wallet mint)

/-- The SPL token `transfer` primitive (trusted external collaborator): debits
`n` from the source balance and credits it to the destination, failing on
insufficient source funds or `u64` overflow of the destination. Returns the
updated `(source, destination)` amounts. -/
def splTransfer (fromAmt toAmt n : Nat) : Except ProgError (Nat × Nat) :=
  if fromAmt < n then .error .TokenInsufficientFunds
  else
    match u64checkedAdd toAmt n with
    | none => .error .TokenOverflow
    | some t => .ok (fromAmt - n, t)

/-- Source `instructions/post_bounty.rs`: the accounts of the `PostBounty`
instruction. `bounty_token_account` is the unchecked escrow account: its
address, its data length (`data_is_empty()` is `dataLen = 0`), and the token
balance its data currently records. -/
structure PostBountyAccounts where
  creator : Pubkey
  usdc_mint : Pubkey
  creator_token_account : TokenAccount
  bounty_token_account_key : Pubkey
  bounty_token_account_dataLen : Nat
  bounty_token_account_amount : Nat

/-- Source `instructions/post_bounty.rs`: the `PostBounty` account constraints
followed by the `post_bounty` handler. The two leading guards are the Anchor
`constraint`s on `creator_token_account` (mint and owner, default Anchor
error); the handler then builds the Bounty record, checks the escrow account's
address against the derived ATA, checks it is initialized, and transfers
`reward` from the creator into escrow. Returns the written Bounty record and
the updated `(creator, escrow)` token amounts. -/
def post_bounty (accs : PostBountyAccounts) (bounty_id : Nat)
    (bounty_type : BountyType) (description : String) (reward : Nat)
    (bump : Nat) : Except ProgError (Bounty × Nat × Nat) :=
  if accs.creator_token_account.mint ≠ accs.usdc_mint then .error .ConstraintRaw
  else if accs.creator_token_account.owner ≠ accs.creator then .error .ConstraintRaw
  else
    let bounty : Bounty :=
      { id := bounty_id, bounty_type := bounty_type, description := description
        reward := reward, solution_hash := none, status := BountyStatus.Open
        creator := accs.creator, bump := bump }
    let expected_ata := get_associated_token_address (bountyAddress bounty_id) accs.usdc_mint
    if accs.bounty_token_account_key ≠ expected_ata then .error .ConstraintTokenMint
    else if accs.bounty_token_account_dataLen = 0 then .error .AccountNotInitialized
    else
      match splTransfer accs.creator_token_account.amount
          accs.bounty_token_account_amount reward with
      | .error e => .error e
      | .ok (c', e') => .ok (bounty, c', e')

/-- The on-ledger state a `PostBounty` transaction touches: the (initially
absent) bounty record at the derived address, the creator's token balance, and
the escrow token balance. -/
structure PostLedger where
  bounty : Option Bounty
  creatorAmount : Nat
  escrowAmount : Nat
  deriving DecidableEq, Repr

/-- A `PostBounty` transaction against the ledger. The leading guard is the
substrate's `init` collision check (the bounty PDA must not already exist,
rejected by the storage layer before the handler runs). On success the record
write and both balance updates commit together; on any error the substrate
discards the transaction wholesale and the pre-state is kept. -/
def runPostBounty (st : PostLedger) (creator usdc_mint cta_mint cta_owner : Pubkey)
    (bta_key : Pubkey) (bta_dataLen : Nat) (bounty_id : Nat) (ty : BountyType)
    (descr : String) (reward bump : Nat) : PostLedger × Option ProgError :=
  if st.bounty.isSome then (st, some .AccountAlreadyInUse)
  else
    match post_bounty
        ⟨creator, usdc_mint, ⟨cta_mint, cta_owner, st.creatorAmount⟩,
          bta_key, bta_dataLen, st.escrowAmount⟩
        bounty_id ty descr reward bump with
    | .ok (b, c', e') => (⟨some b, c', e'⟩, none)
    | .error e => (st, some e)

/-- Modelled from the spec: the accounts of the `SettleBounty` instruction.
`instructions/settle_bounty.rs` is declared in `instructions/mod.rs` but its
source is not in the repository snapshot, so the instruction is modelled from
spec §4.4. `agent` is the winning agent being paid (per the spec's open
question, the binding of this account is whatever the caller supplies, checked
against the reputation record's owner); `escrow_amount` and
`agent_token_amount` are the escrow and agent token balances. -/
structure SettleBountyAccounts where
  creator : Pubkey
  bounty : Bounty
  agent : Pubkey
  reputation : Reputation
  escrow_amount : Nat
  agent_token_amount : Nat

/-- Modelled from the spec: the `SettleBounty` instruction
(`instructions/settle_bounty.rs` is absent from the snapshot), following spec
§4.4 word for word. Preconditions in the spec's order: status is Submitted
(else `BountyNotSubmitted`), the signer is the bounty's creator (else
`UnauthorizedSettlement`), the credited reputation record belongs to the
winning agent (else `ReputationOwnerMismatch`). Effects: transfer the full
escrow balance to the agent, advance status to Settled, increment
`successful_bounties` and `total_earned` with checked arithmetic
(`ReputationOverflow` on overflow). Returns the updated bounty, reputation,
escrow amount, and agent token amount. -/
def settle_bounty (accs : SettleBountyAccounts) :
    Except ProgError (Bounty × Reputation × Nat × Nat) :=
  if accs.bounty.status ≠ BountyStatus.Submitted then .error .BountyNotSubmitted
  else if accs.creator ≠ accs.bounty.creator then .error .UnauthorizedSettlement
  else if accs.reputation.agent ≠ accs.agent then .error .ReputationOwnerMismatch
  else
    match u64checkedAdd accs.reputation.successful_bounties 1,
        u64checkedAdd accs.reputation.total_earned accs.escrow_amount with
    | some sb, some te =>
        .ok ({ accs.bounty with status := BountyStatus.Settled },
          { accs.reputation with successful_bounties := sb, total_earned := te },
          0, accs.agent_token_amount + accs.escrow_amount)
    | _, _ => .error .ReputationOverflow

/-- The on-ledger state a `SettleBounty` transaction touches. -/
structure SettleLedger where
  bounty : Bounty
  reputation : Reputation
  escrowAmount : Nat
  agentAmount : Nat
  deriving DecidableEq, Repr

/-- A `SettleBounty` transaction against the ledger: all writes commit
together on success; on any error the pre-state is kept. -/
def runSettle (st : SettleLedger) (signer agent : Pubkey) :
    SettleLedger × Option ProgError :=
  match settle_bounty ⟨signer, st.bounty, agent, st.reputation, st.escrowAmount,
      st.agentAmount⟩ with
  | .ok (b', r', e', a') => (⟨b', r', e', a'⟩, none)
  | .error e => (st, some e)

/-! ## The bounty lifecycle as a transition system

After creation, a bounty record is only ever rewritten by a successful
`SubmitSolution` or `SettleBounty` transaction (spec §3: "never destroyed").
`BountyStep b b'` relates the record before and after one such successful
transaction, quantifying over every choice of the other accounts. -/

/-- One successful lifecycle transaction rewriting the bounty record `b` to
`b'`: either a `SubmitSolution` or a `SettleBounty` that returned `Ok`. -/
inductive BountyStep : Bounty → Bounty → Prop where
  | submit (signer : Pubkey) (att : Attestation) (rep : Option Reputation)
      (oracle : Option AccountInfo) (h : SolutionHash) (bump : Nat)
      (b b' : Bounty) (rep' : Reputation)
      (ok : submit_solution ⟨signer, b, att, rep, oracle⟩ h bump = .ok (b', rep')) :
      BountyStep b b'
  | settle (signer agent : Pubkey) (rep : Reputation) (esc agentAmt : Nat)
      (b b' : Bounty) (rep' : Reputation) (esc' agentAmt' : Nat)
      (ok : settle_bounty ⟨signer, b, agent, rep, esc, agentAmt⟩ =
        .ok (b', rep', esc', agentAmt')) :
      BountyStep b b'

/-- A bounty record reachable on the ledger: written by a successful
`PostBounty` and then rewritten by any number of successful lifecycle
transactions. -/
inductive ReachableBounty : Bounty → Prop where
  | created (accs : PostBountyAccounts) (bounty_id : Nat) (ty : BountyType)
      (descr : String) (reward bump : Nat) (b : Bounty) (c' e' : Nat)
      (ok : post_bounty accs bounty_id ty descr reward bump = .ok (b, c', e')) :
      ReachableBounty b
  | stepped (b b' : Bounty) (hb : ReachableBounty b) (st : BountyStep b b') :
      ReachableBounty b'

/-! ## Inversion lemmas

Success of each instruction pins down both the preconditions it checked and
the exact record it wrote. -/

/-- Inversion of a successful `submit_solution`: every checked precondition
held, and the outputs are exactly the updated bounty and the
created-or-incremented reputation. -/
theorem submit_solution_ok_inv {accs : SubmitSolutionAccounts}
    {sh : SolutionHash} {bump : Nat} {b' : Bounty} {r' : Reputation}
    (hok : submit_solution accs sh bump = .ok (b', r')) :
    accs.bounty.status = BountyStatus.Open ∧
    accs.bounty.solution_hash = none ∧
    accs.attestation.agent = accs.agent ∧
    accs.attestation.solution_hash = sh ∧
    b' = { accs.bounty with solution_hash := some sh
                            status := BountyStatus.Submitted } ∧
    ((accs.reputation.getD zeroReputation).agent = 0 ∧
        r' = { agent := accs.agent, score := 1, successful_bounties := 0
               failed_bounties := 0, total_earned := 0, bump := bump } ∨
      (accs.reputation.getD zeroReputation).agent = accs.agent ∧
        (accs.reputation.getD zeroReputation).agent ≠ 0 ∧
        r' = { accs.reputation.getD zeroReputation with
               score := (accs.reputation.getD zeroReputation).score + 1 }) := by
  unfold submit_solution at hok
  split at hok
  · exact absurd hok (by simp)
  split at hok
  · exact absurd hok (by simp)
  split at hok
  · exact absurd hok (by simp)
  split at hok
  · exact absurd hok (by simp)
  rename_i h1 h2 h3 h4
  dsimp only at hok
  split at hok
  · exact absurd hok (by simp)
  split at hok
  · exact absurd hok (by simp)
  refine ⟨not_not.mp h1, not_not.mp h2, not_not.mp h3, not_not.mp h4, ?_⟩
  split at hok
  · rename_i hz
    simp only [Except.ok.injEq, Prod.mk.injEq] at hok
    exact ⟨hok.1.symm, Or.inl ⟨hz, hok.2.symm⟩⟩
  · rename_i hz
    split at hok
    · exact absurd hok (by simp)
    rename_i hown
    split at hok
    · exact absurd hok (by simp)
    rename_i s hadd
    have hs : s = (accs.reputation.getD zeroReputation).score + 1 := by
      unfold u64checkedAdd at hadd
      split at hadd
      · exact (Option.some.injEq _ _ ▸ hadd).symm
      · exact absurd hadd (by simp)
    simp only [Except.ok.injEq, Prod.mk.injEq] at hok
    exact ⟨hok.1.symm, Or.inr ⟨not_not.mp hown, hz, by rw [← hok.2, hs]⟩⟩

/-- Inversion of a successful `splTransfer`: the source covered the amount,
the destination did not overflow, and the amounts moved in full. -/
theorem splTransfer_ok_inv {f t n c e : Nat} (hok : splTransfer f t n = .ok (c, e)) :
    n ≤ f ∧ t + n ≤ U64_MAX ∧ c = f - n ∧ e = t + n := by
  unfold splTransfer at hok
  split at hok
  · exact absurd hok (by simp)
  rename_i hf
  split at hok
  · exact absurd hok (by simp)
  rename_i s hadd
  have hs : s = t + n ∧ t + n ≤ U64_MAX := by
    unfold u64checkedAdd at hadd
    split at hadd
    · exact ⟨(Option.some.injEq _ _ ▸ hadd).symm, by assumption⟩
    · exact absurd hadd (by simp)
  simp only [Except.ok.injEq, Prod.mk.injEq] at hok
  exact ⟨Nat.le_of_not_lt hf, hs.2, hok.1.symm, by rw [← hok.2, hs.1]⟩

/-- Inversion of a successful `post_bounty`: every constraint held, the Bounty
record is exactly the freshly initialized one (status `Open`, no solution
hash, the signer as creator), and the escrow was credited with exactly
`reward` taken from the creator. -/
theorem post_bounty_ok_inv {accs : PostBountyAccounts} {bounty_id : Nat}
    {ty : BountyType} {descr : String} {reward bump : Nat} {b : Bounty}
    {c' e' : Nat}
    (hok : post_bounty accs bounty_id ty descr reward bump = .ok (b, c', e')) :
    accs.creator_token_account.mint = accs.usdc_mint ∧
    accs.creator_token_account.owner = accs.creator ∧
    accs.bounty_token_account_key =
      get_associated_token_address (bountyAddress bounty_id) accs.usdc_mint ∧
    accs.bounty_token_account_dataLen ≠ 0 ∧
    reward ≤ accs.creator_token_account.amount ∧
    b = { id := bounty_id, bounty_type := ty, description := descr
          reward := reward, solution_hash := none, status := BountyStatus.Open
          creator := accs.creator, bump := bump } ∧
    c' = accs.creator_token_account.amount - reward ∧
    e' = accs.bounty_token_account_amount + reward := by
  unfold post_bounty at hok
  split at hok
  · exact absurd hok (by simp)
  split at hok
  · exact absurd hok (by simp)
  rename_i h1 h2
  dsimp only at hok
  split at hok
  · exact absurd hok (by simp)
  split at hok
  · exact absurd hok (by simp)
  rename_i h3 h4
  split at hok
  · exact absurd hok (by simp)
  rename_i c'' e'' htr
  obtain ⟨hn, _, hc, he⟩ := splTransfer_ok_inv htr
  simp only [Except.ok.injEq, Prod.mk.injEq] at hok
  exact ⟨not_not.mp h1, not_not.mp h2, not_not.mp h3, h4, hn, hok.1.symm,
    by rw [← hok.2.1, hc], by rw [← hok.2.2, he]⟩

/-- Inversion of a successful `settle_bounty`: every precondition held, the
bounty is Settled, the counters advanced by exactly one settlement, and the
full escrow moved to the agent. -/
theorem settle_bounty_ok_inv {accs : SettleBountyAccounts} {b' : Bounty}
    {r' : Reputation} {e' a' : Nat}
    (hok : settle_bounty accs = .ok (b', r', e', a')) :
    accs.bounty.status = BountyStatus.Submitted ∧
    accs.creator = accs.bounty.creator ∧
    accs.reputation.agent = accs.agent ∧
    accs.reputation.successful_bounties + 1 ≤ U64_MAX ∧
    accs.reputation.total_earned + accs.escrow_amount ≤ U64_MAX ∧
    b' = { accs.bounty with status := BountyStatus.Settled } ∧
    r' = { accs.reputation with
           successful_bounties := accs.reputation.successful_bounties + 1
           total_earned := accs.reputation.total_earned + accs.escrow_amount } ∧
    e' = 0 ∧ a' = accs.agent_token_amount + accs.escrow_amount := by
  unfold settle_bounty at hok
  split at hok
  · exact absurd hok (by simp)
  split at hok
  · exact absurd hok (by simp)
  split at hok
  · exact absurd hok (by simp)
  rename_i h1 h2 h3
  split at hok
  · rename_i sb te hsb hte
    have hsb' : sb = accs.reputation.successful_bounties + 1 ∧
        accs.reputation.successful_bounties + 1 ≤ U64_MAX := by
      unfold u64checkedAdd at hsb
      split at hsb
      · exact ⟨(Option.some.injEq _ _ ▸ hsb).symm, by assumption⟩
      · exact absurd hsb (by simp)
    have hte' : te = accs.reputation.total_earned + accs.escrow_amount ∧
        accs.reputation.total_earned + accs.escrow_amount ≤ U64_MAX := by
      unfold u64checkedAdd at hte
      split at hte
      · exact ⟨(Option.some.injEq _ _ ▸ hte).symm, by assumption⟩
      · exact absurd hte (by simp)
    simp only [Except.ok.injEq, Prod.mk.injEq] at hok
    exact ⟨not_not.mp h1, not_not.mp h2, not_not.mp h3, hsb'.2, hte'.2,
      hok.1.symm, by rw [← hok.2.1, hsb'.1, hte'.1], hok.2.2.1.symm,
      hok.2.2.2.symm⟩
  · exact absurd hok (by simp)

/-- A failed `SubmitSolution` transaction commits nothing: the ledger state
reported back is the pre-state. -/
theorem runSubmit_error_frame {st : SubmitLedger} {signer : Pubkey}
    {att : Attestation} {oracle : Option AccountInfo} {h : SolutionHash}
    {bump : Nat} {st' : SubmitLedger} {e : ProgError}
    (hrun : runSubmit st signer att oracle h bump = (st', some e)) : st' = st := by
  unfold runSubmit at hrun
  split at hrun
  · exact absurd hrun (by simp)
  · simp only [Prod.mk.injEq] at hrun
    exact hrun.1.symm

/-- A failed `PostBounty` transaction commits nothing: the ledger state
reported back is the pre-state. -/
theorem runPostBounty_error_frame {st : PostLedger} {creator usdc_mint cta_mint
    cta_owner bta_key : Pubkey} {bta_dataLen bounty_id : Nat} {ty : BountyType}
    {descr : String} {reward bump : Nat} {st' : PostLedger} {e : ProgError}
    (hrun : runPostBounty st creator usdc_mint cta_mint cta_owner bta_key
      bta_dataLen bounty_id ty descr reward bump = (st', some e)) : st' = st := by
  unfold runPostBounty at hrun
  split at hrun
  · simp only [Prod.mk.injEq] at hrun
    exact hrun.1.symm
  · split at hrun
    · exact absurd hrun (by simp)
    · simp only [Prod.mk.injEq] at hrun
      exact hrun.1.symm

/-- A failed `SettleBounty` transaction commits nothing: the ledger state
reported back is the pre-state. -/
theorem runSettle_error_frame {st : SettleLedger} {signer agent : Pubkey}
    {st' : SettleLedger} {e : ProgError}
    (hrun : runSettle st signer agent = (st', some e)) : st' = st := by
  unfold runSettle at hrun
  split at hrun
  · exact absurd hrun (by simp)
  · simp only [Prod.mk.injEq] at hrun
    exact hrun.1.symm

/-! ## The claims -/

/-- C1: a `SubmitSolution` call succeeds only if the presented solution hash
equals the attestation's stored hash and the attestation's agent equals the
signer; a hash mismatch fails with `SolutionHashMismatch`, an owner mismatch
fails with `AttestationOwnerMismatch`, and either failure leaves the Bounty
and Reputation records unchanged (the transaction reports the pre-state). -/
theorem submit_attestation_binding (st : SubmitLedger) (signer : Pubkey)
    (att : Attestation) (oracle : Option AccountInfo) (h : SolutionHash)
    (bump : Nat) (hst : st.bounty.status = BountyStatus.Open)
    (hsh : st.bounty.solution_hash = none) :
    (att.agent = signer → att.solution_hash ≠ h →
      runSubmit st signer att oracle h bump =
        (st, some ProgError.SolutionHashMismatch)) ∧
    (att.agent ≠ signer →
      runSubmit st signer att oracle h bump =
        (st, some ProgError.AttestationOwnerMismatch)) ∧
    (∀ b' r', submit_solution ⟨signer, st.bounty, att, st.reputation, oracle⟩
        h bump = .ok (b', r') →
      att.solution_hash = h ∧ att.agent = signer) := by
  refine ⟨?_, ?_, ?_⟩
  · intro hagent hhash
    unfold runSubmit submit_solution
    simp [hst, hsh, hagent, hhash]
  · intro hagent
    unfold runSubmit submit_solution
    simp [hst, hsh, hagent]
  · intro b' r' hok
    obtain ⟨_, _, h3, h4, _, _⟩ := submit_solution_ok_inv hok
    exact ⟨h4, h3⟩

/-- C1 witness: on a concrete Open bounty, a wrong hash is rejected with
`SolutionHashMismatch` and a foreign attestation with
`AttestationOwnerMismatch`, the ledger unchanged both times. -/
theorem submit_attestation_binding_witness :
    runSubmit ⟨⟨7, .WalletIntelligence, "find wallet", 1000, none, .Open, 42, 5⟩,
        none⟩ 9 ⟨1, [1, 2, 3], 0, 9, false, 3⟩ none [9, 9, 9] 4 =
      (⟨⟨7, .WalletIntelligence, "find wallet", 1000, none, .Open, 42, 5⟩, none⟩,
        some ProgError.SolutionHashMismatch) ∧
    runSubmit ⟨⟨7, .WalletIntelligence, "find wallet", 1000, none, .Open, 42, 5⟩,
        none⟩ 8 ⟨1, [1, 2, 3], 0, 9, false, 3⟩ none [1, 2, 3] 4 =
      (⟨⟨7, .WalletIntelligence, "find wallet", 1000, none, .Open, 42, 5⟩, none⟩,
        some ProgError.AttestationOwnerMismatch) :=
  ⟨(submit_attestation_binding _ 9 _ none _ 4 (by decide) (by decide)).1
      (by decide) (by decide),
    (submit_attestation_binding _ 8 _ none _ 4 (by decide) (by decide)).2.1
      (by decide)⟩

/-- C2: the bounty status only ever advances along
Open → Submitted → Settled — every successful lifecycle transaction is either
Open→Submitted or Submitted→Settled, never backward and never skipping a
state — and `submit_solution` on a non-Open bounty fails with
`BountyNotOpen`. -/
theorem bounty_status_monotone (b b' : Bounty) :
    (BountyStep b b' →
      (b.status = BountyStatus.Open ∧ b'.status = BountyStatus.Submitted) ∨
      (b.status = BountyStatus.Submitted ∧ b'.status = BountyStatus.Settled)) ∧
    (∀ (accs : SubmitSolutionAccounts) (h : SolutionHash) (bump : Nat),
      accs.bounty = b → b.status ≠ BountyStatus.Open →
      submit_solution accs h bump = .error ProgError.BountyNotOpen) := by
  constructor
  · intro hstep
    cases hstep with
    | submit signer att rep oracle h bump _ _ rep' ok =>
      obtain ⟨h1, _, _, _, hb', _⟩ := submit_solution_ok_inv ok
      exact Or.inl ⟨h1, by rw [hb']⟩
    | settle signer agent rep esc agentAmt _ _ rep' esc' agentAmt' ok =>
      obtain ⟨h1, _, _, _, _, hb', _⟩ := settle_bounty_ok_inv ok
      exact Or.inr ⟨h1, by rw [hb']⟩
  · intro accs h bump heq hne
    unfold submit_solution
    rw [heq]
    simp [hne]

/-- C2 witness: a concrete `SubmitSolution` step is Open→Submitted, and
`submit_solution` on an already-Submitted bounty fails with `BountyNotOpen`. -/
theorem bounty_status_monotone_witness :
    ((Bounty.mk 7 .WalletIntelligence "find wallet" 1000 none .Open 42 5).status =
        BountyStatus.Open ∧
      (Bounty.mk 7 .WalletIntelligence "find wallet" 1000 (some [1, 2, 3])
        .Submitted 42 5).status = BountyStatus.Submitted ∨
      (Bounty.mk 7 .WalletIntelligence "find wallet" 1000 none .Open 42 5).status =
        BountyStatus.Submitted ∧
      (Bounty.mk 7 .WalletIntelligence "find wallet" 1000 (some [1, 2, 3])
        .Submitted 42 5).status = BountyStatus.Settled) ∧
    submit_solution
      ⟨9, ⟨7, .WalletIntelligence, "find wallet", 1000, some [1, 2, 3],
        .Submitted, 42, 5⟩, ⟨1, [1, 2, 3], 0, 9, false, 3⟩, none, none⟩
      [1, 2, 3] 4 = .error ProgError.BountyNotOpen :=
  ⟨(bounty_status_monotone _ _).1
      (BountyStep.submit 9 ⟨1, [1, 2, 3], 0, 9, false, 3⟩ none none [1, 2, 3] 4
        _ _ ⟨9, 1, 0, 0, 0, 4⟩ (by rfl)),
    (bounty_status_monotone
        (Bounty.mk 7 .WalletIntelligence "find wallet" 1000 (some [1, 2, 3])
          .Submitted 42 5)
        (Bounty.mk 7 .WalletIntelligence "find wallet" 1000 (some [1, 2, 3])
          .Submitted 42 5)).2
      _ [1, 2, 3] 4 rfl (by decide)⟩

/-- C8: on every reachable bounty record, `solution_hash` is `none` exactly
when the status is Open and is `some` exactly when the status is Submitted or
Settled; moreover `submit_solution` on an Open bounty that already carries a
hash fails with `BountyAlreadySubmitted`. -/
theorem solution_hash_matches_status (b : Bounty) :
    (ReachableBounty b →
      (b.solution_hash = none ↔ b.status = BountyStatus.Open) ∧
      (b.solution_hash ≠ none ↔
        (b.status = BountyStatus.Submitted ∨ b.status = BountyStatus.Settled))) ∧
    (∀ (accs : SubmitSolutionAccounts) (h : SolutionHash) (bump : Nat),
      accs.bounty = b → b.status = BountyStatus.Open → b.solution_hash ≠ none →
      submit_solution accs h bump = .error ProgError.BountyAlreadySubmitted) := by
  constructor
  · intro hreach
    induction hreach with
    | created accs bounty_id ty descr reward bump b c' e' ok =>
      obtain ⟨_, _, _, _, _, hb, _⟩ := post_bounty_ok_inv ok
      subst hb
      simp
    | stepped b b' hb hstep ih =>
      cases hstep with
      | submit signer att rep oracle h bump _ _ rep' ok =>
        obtain ⟨_, _, _, _, hb', _⟩ := submit_solution_ok_inv ok
        subst hb'
        simp
      | settle signer agent rep esc agentAmt _ _ rep' esc' agentAmt' ok =>
        obtain ⟨h1, _, _, _, _, hb', _⟩ := settle_bounty_ok_inv ok
        subst hb'
        have hsome : b.solution_hash ≠ none := ih.2.mpr (Or.inl h1)
        constructor
        · simpa using fun hnone => absurd hnone hsome
        · simpa using hsome
  · intro accs h bump heq hst hsh
    unfold submit_solution
    rw [heq]
    simp [hst, hsh]

/-- C8 witness: a freshly posted concrete bounty is reachable and satisfies
the invariant, and a hash-carrying Open bounty is rejected with
`BountyAlreadySubmitted`. -/
theorem solution_hash_matches_status_witness :
    (((Bounty.mk 7 .WalletIntelligence "find wallet" 1000 none .Open 42
          5).solution_hash = none ↔
        (Bounty.mk 7 .WalletIntelligence "find wallet" 1000 none .Open 42
          5).status = BountyStatus.Open) ∧
      ((Bounty.mk 7 .WalletIntelligence "find wallet" 1000 none .Open 42
          5).solution_hash ≠ none ↔
        ((Bounty.mk 7 .WalletIntelligence "find wallet" 1000 none .Open 42
            5).status = BountyStatus.Submitted ∨
          (Bounty.mk 7 .WalletIntelligence "find wallet" 1000 none .Open 42
            5).status = BountyStatus.Settled))) ∧
    submit_solution
      ⟨9, ⟨7, .WalletIntelligence, "find wallet", 1000, some [1, 2, 3], .Open,
        42, 5⟩, ⟨1, [1, 2, 3], 0, 9, false, 3⟩, none, none⟩
      [1, 2, 3] 4 = .error ProgError.BountyAlreadySubmitted :=
  ⟨(solution_hash_matches_status _).1
      (ReachableBounty.created
        ⟨42, 100, ⟨100, 42, 5000⟩,
          get_associated_token_address (bountyAddress 7) 100, 165, 0⟩
        7 .WalletIntelligence "find wallet" 1000 5 _ 4000 1000 (by rfl)),
    (solution_hash_matches_status
        (Bounty.mk 7 .WalletIntelligence "find wallet" 1000 (some [1, 2, 3])
          .Open 42 5)).2
      _ [1, 2, 3] 4 rfl (by decide) (by decide)⟩

/-- C9: a successful `submit_solution` changes only `solution_hash` and
`status` — `id`, `bounty_type`, `description`, `reward`, `creator` and `bump`
are exactly as before — and no successful lifecycle transaction ever changes
`reward`. -/
theorem submit_solution_frame (accs : SubmitSolutionAccounts)
    (h : SolutionHash) (bump : Nat) (b' : Bounty) (r' : Reputation)
    (b0 b1 : Bounty) :
    (submit_solution accs h bump = .ok (b', r') →
      b'.id = accs.bounty.id ∧ b'.bounty_type = accs.bounty.bounty_type ∧
      b'.description = accs.bounty.description ∧
      b'.reward = accs.bounty.reward ∧ b'.creator = accs.bounty.creator ∧
      b'.bump = accs.bounty.bump) ∧
    (BountyStep b0 b1 → b1.reward = b0.reward) := by
  constructor
  · intro hok
    obtain ⟨_, _, _, _, hb', _⟩ := submit_solution_ok_inv hok
    subst hb'
    exact ⟨rfl, rfl, rfl, rfl, rfl, rfl⟩
  · intro hstep
    cases hstep with
    | submit signer att rep oracle hh bmp _ _ rep' ok =>
      obtain ⟨_, _, _, _, hb', _⟩ := submit_solution_ok_inv ok
      rw [hb']
    | settle signer agent rep esc agentAmt _ _ rep' esc' agentAmt' ok =>
      obtain ⟨_, _, _, _, _, hb', _⟩ := settle_bounty_ok_inv ok
      rw [hb']

/-- C9 witness: a concrete successful submission keeps all non-lifecycle
Bounty fields, and a concrete settle step keeps `reward`. -/
theorem submit_solution_frame_witness :
    ((Bounty.mk 7 .WalletIntelligence "find wallet" 1000 (some [1, 2, 3])
        .Submitted 42 5).id =
        (Bounty.mk 7 .WalletIntelligence "find wallet" 1000 none .Open 42
          5).id ∧
      (Bounty.mk 7 .WalletIntelligence "find wallet" 1000 (some [1, 2, 3])
        .Submitted 42 5).bounty_type =
        (Bounty.mk 7 .WalletIntelligence "find wallet" 1000 none .Open 42
          5).bounty_type ∧
      (Bounty.mk 7 .WalletIntelligence "find wallet" 1000 (some [1, 2, 3])
        .Submitted 42 5).description =
        (Bounty.mk 7 .WalletIntelligence "find wallet" 1000 none .Open 42
          5).description ∧
      (Bounty.mk 7 .WalletIntelligence "find wallet" 1000 (some [1, 2, 3])
        .Submitted 42 5).reward =
        (Bounty.mk 7 .WalletIntelligence "find wallet" 1000 none .Open 42
          5).reward ∧
      (Bounty.mk 7 .WalletIntelligence "find wallet" 1000 (some [1, 2, 3])
        .Submitted 42 5).creator =
        (Bounty.mk 7 .WalletIntelligence "find wallet" 1000 none .Open 42
          5).creator ∧
      (Bounty.mk 7 .WalletIntelligence "find wallet" 1000 (some [1, 2, 3])
        .Submitted 42 5).bump =
        (Bounty.mk 7 .WalletIntelligence "find wallet" 1000 none .Open 42
          5).bump) ∧
    (Bounty.mk 7 .WalletIntelligence "find wallet" 1000 (some [1, 2, 3])
      .Settled 42 5).reward =
      (Bounty.mk 7 .WalletIntelligence "find wallet" 1000 (some [1, 2, 3])
        .Submitted 42 5).reward :=
  ⟨(submit_solution_frame
      ⟨9, ⟨7, .WalletIntelligence, "find wallet", 1000, none, .Open, 42, 5⟩,
        ⟨1, [1, 2, 3], 0, 9, false, 3⟩, none, none⟩
      [1, 2, 3] 4 _ ⟨9, 1, 0, 0, 0, 4⟩
      (Bounty.mk 7 .WalletIntelligence "find wallet" 1000 none .Open 42 5)
      (Bounty.mk 7 .WalletIntelligence "find wallet" 1000 none .Open 42 5)).1
      (by rfl),
    (submit_solution_frame
      ⟨9, ⟨7, .WalletIntelligence, "find wallet", 1000, none, .Open, 42, 5⟩,
        ⟨1, [1, 2, 3], 0, 9, false, 3⟩, none, none⟩
      [1, 2, 3] 4
      (Bounty.mk 7 .WalletIntelligence "find wallet" 1000 none .Open 42 5)
      ⟨9, 1, 0, 0, 0, 4⟩ _ _).2
      (BountyStep.settle 42 9 ⟨9, 1, 0, 0, 0, 4⟩ 1000 0 _ _
        ⟨9, 1, 1, 0, 1000, 4⟩ 0 1000 (by rfl))⟩

/-- C3: after every successful `PostBounty` transaction the bounty record is
exactly the freshly initialized one (status Open, no solution hash, the given
id, description, reward, and the signer as creator) and, atomically in the
same transaction, the escrow balance was credited with the full `reward` (so
it equals exactly `reward` when the escrow account starts empty, and is never
below `reward`); a failed transaction commits nothing, so no state with the
record present but the escrow underfunded is ever observable. -/
theorem post_bounty_funds_escrow (st : PostLedger)
    (creator usdc_mint cta_mint cta_owner bta_key : Pubkey)
    (bta_dataLen bounty_id : Nat) (ty : BountyType) (descr : String)
    (reward bump : Nat) :
    (∀ st', runPostBounty st creator usdc_mint cta_mint cta_owner bta_key
        bta_dataLen bounty_id ty descr reward bump = (st', none) →
      st'.bounty = some
        { id := bounty_id, bounty_type := ty, description := descr
          reward := reward, solution_hash := none, status := BountyStatus.Open
          creator := creator, bump := bump } ∧
      st'.escrowAmount = st.escrowAmount + reward ∧
      reward ≤ st'.escrowAmount ∧
      (st.escrowAmount = 0 → st'.escrowAmount = reward)) ∧
    (∀ st' e, runPostBounty st creator usdc_mint cta_mint cta_owner bta_key
        bta_dataLen bounty_id ty descr reward bump = (st', some e) →
      st' = st) := by
  constructor
  · intro st' hrun
    unfold runPostBounty at hrun
    split at hrun
    · exact absurd hrun (by simp)
    split at hrun
    · rename_i b c' e' hok
      obtain ⟨_, _, _, _, _, hb, _, he⟩ := post_bounty_ok_inv hok
      have hb' : b =
          { id := bounty_id, bounty_type := ty, description := descr
            reward := reward, solution_hash := none
            status := BountyStatus.Open, creator := creator, bump := bump } := hb
      have he' : e' = st.escrowAmount + reward := he
      simp only [Prod.mk.injEq] at hrun
      rw [← hrun.1]
      refine ⟨?_, ?_, ?_, ?_⟩
      · show some b = _
        rw [hb']
      · exact he'
      · show reward ≤ e'
        omega
      · intro h0
        show e' = reward
        omega
    · exact absurd hrun (by simp)
  · intro st' e hrun
    exact runPostBounty_error_frame hrun

/-- C3 witness: a concrete successful `PostBounty` with an initially empty
escrow yields the initialized record and an escrow balance of exactly the
reward. -/
theorem post_bounty_funds_escrow_witness :
    (PostLedger.mk
        (some ⟨7, .WalletIntelligence, "find wallet", 1000, none, .Open, 42, 5⟩)
        4000 1000).bounty = some
      { id := 7, bounty_type := BountyType.WalletIntelligence
        description := "find wallet", reward := 1000, solution_hash := none
        status := BountyStatus.Open, creator := 42, bump := 5 } ∧
    (PostLedger.mk
        (some ⟨7, .WalletIntelligence, "find wallet", 1000, none, .Open, 42, 5⟩)
        4000 1000).escrowAmount = (PostLedger.mk none 5000 0).escrowAmount + 1000 ∧
    1000 ≤ (PostLedger.mk
        (some ⟨7, .WalletIntelligence, "find wallet", 1000, none, .Open, 42, 5⟩)
        4000 1000).escrowAmount ∧
    ((PostLedger.mk none 5000 0).escrowAmount = 0 →
      (PostLedger.mk
          (some ⟨7, .WalletIntelligence, "find wallet", 1000, none, .Open, 42, 5⟩)
          4000 1000).escrowAmount = 1000) :=
  (post_bounty_funds_escrow (PostLedger.mk none 5000 0) 42 100 100 42
      (get_associated_token_address (bountyAddress 7) 100) 165 7
      .WalletIntelligence "find wallet" 1000 5).1
    _ (by rfl)

/-- C3 counterexample: a successful `PostBounty` does not always leave the
escrow at exactly `reward`. The escrow ATA is created by the caller before the
call and can be pre-funded by anyone; the handler only checks its address and
that it is initialized, then credits `reward` on top. Concretely: with the
escrow pre-funded at 500 and `reward = 1000`, the call succeeds, the Bounty
record exists, and the escrow holds 1500 ≠ 1000. -/
theorem post_bounty_prefunded_escrow_counterexample :
    runPostBounty (PostLedger.mk none 5000 500) 42 100 100 42
        (get_associated_token_address (bountyAddress 7) 100) 165 7
        .WalletIntelligence "find wallet" 1000 5 =
      (PostLedger.mk
        (some ⟨7, .WalletIntelligence, "find wallet", 1000, none, .Open, 42, 5⟩)
        4000 1500, none) ∧
    (1500 : Nat) ≠ 1000 :=
  ⟨by decide, by decide⟩

/-- C6: a `PostBounty` transaction whose supplied bounty token account address
differs from the associated-token address derived from
`(bounty address, mint)` aborts with `ConstraintTokenMint`; one whose account
is uninitialized (empty data) aborts with `AccountNotInitialized`; and after
any failed `PostBounty` no bounty record exists and no balances have moved. -/
theorem post_bounty_escrow_checks (st : PostLedger) (creator usdc_mint bta_key : Pubkey)
    (bta_dataLen bounty_id : Nat) (ty : BountyType) (descr : String)
    (reward bump : Nat) (hnone : st.bounty = none) :
    (bta_key ≠ get_associated_token_address (bountyAddress bounty_id) usdc_mint →
      runPostBounty st creator usdc_mint usdc_mint creator bta_key bta_dataLen
          bounty_id ty descr reward bump =
        (st, some ProgError.ConstraintTokenMint)) ∧
    (bta_key = get_associated_token_address (bountyAddress bounty_id) usdc_mint →
      bta_dataLen = 0 →
      runPostBounty st creator usdc_mint usdc_mint creator bta_key bta_dataLen
          bounty_id ty descr reward bump =
        (st, some ProgError.AccountNotInitialized)) ∧
    (∀ st' e, runPostBounty st creator usdc_mint usdc_mint creator bta_key
        bta_dataLen bounty_id ty descr reward bump = (st', some e) →
      st'.bounty = none ∧ st'.creatorAmount = st.creatorAmount ∧
      st'.escrowAmount = st.escrowAmount) := by
  refine ⟨?_, ?_, ?_⟩
  · intro hkey
    unfold runPostBounty post_bounty
    simp [hnone, hkey]
  · intro hkey hdata
    unfold runPostBounty post_bounty
    simp [hnone, hkey, hdata]
  · intro st' e hrun
    rw [runPostBounty_error_frame hrun]
    exact ⟨hnone, rfl, rfl⟩

/-- C6 witness: with a concrete wrong escrow address the transaction reports
`ConstraintTokenMint`, and with the right address but an empty account it
reports `AccountNotInitialized`; the pre-state (no record, balances intact) is
kept. -/
theorem post_bounty_escrow_checks_witness :
    runPostBounty (PostLedger.mk none 5000 0) 42 100 100 42 77 165 7
        .WalletIntelligence "find wallet" 1000 5 =
      (PostLedger.mk none 5000 0, some ProgError.ConstraintTokenMint) ∧
    runPostBounty (PostLedger.mk none 5000 0) 42 100 100 42
        (get_associated_token_address (bountyAddress 7) 100) 0 7
        .WalletIntelligence "find wallet" 1000 5 =
      (PostLedger.mk none 5000 0, some ProgError.AccountNotInitialized) :=
  ⟨(post_bounty_escrow_checks (PostLedger.mk none 5000 0) 42 100 77 165 7
        .WalletIntelligence "find wallet" 1000 5 rfl).1 (by decide),
    (post_bounty_escrow_checks (PostLedger.mk none 5000 0) 42 100
        (get_associated_token_address (bountyAddress 7) 100) 0 7
        .WalletIntelligence "find wallet" 1000 5 rfl).2.1 rfl rfl⟩

/-- C7: a `SettleBounty` transaction fails with `BountyNotSubmitted` whenever
the status is not Submitted (in particular on an already-Settled bounty),
with `UnauthorizedSettlement` when the signer is not the stored creator, and
with `ReputationOwnerMismatch` when the credited reputation record does not
belong to the winning agent; on success it moves the full escrow balance to
the agent, sets the status to Settled, and advances `successful_bounties` and
`total_earned` by checked arithmetic, failing with `ReputationOverflow` when
either counter would overflow a `u64`. -/
theorem settle_bounty_rules (st : SettleLedger) (signer agent : Pubkey) :
    (st.bounty.status ≠ BountyStatus.Submitted →
      runSettle st signer agent = (st, some ProgError.BountyNotSubmitted)) ∧
    (st.bounty.status = BountyStatus.Settled →
      runSettle st signer agent = (st, some ProgError.BountyNotSubmitted)) ∧
    (st.bounty.status = BountyStatus.Submitted → signer ≠ st.bounty.creator →
      runSettle st signer agent = (st, some ProgError.UnauthorizedSettlement)) ∧
    (st.bounty.status = BountyStatus.Submitted → signer = st.bounty.creator →
      st.reputation.agent ≠ agent →
      runSettle st signer agent = (st, some ProgError.ReputationOwnerMismatch)) ∧
    (∀ st', runSettle st signer agent = (st', none) →
      st'.bounty = { st.bounty with status := BountyStatus.Settled } ∧
      st'.escrowAmount = 0 ∧
      st'.agentAmount = st.agentAmount + st.escrowAmount ∧
      st'.reputation.successful_bounties =
        st.reputation.successful_bounties + 1 ∧
      st'.reputation.total_earned =
        st.reputation.total_earned + st.escrowAmount) ∧
    (st.bounty.status = BountyStatus.Submitted → signer = st.bounty.creator →
      st.reputation.agent = agent →
      (U64_MAX < st.reputation.successful_bounties + 1 ∨
        U64_MAX < st.reputation.total_earned + st.escrowAmount) →
      runSettle st signer agent = (st, some ProgError.ReputationOverflow)) := by
  refine ⟨?_, ?_, ?_, ?_, ?_, ?_⟩
  · intro hst
    unfold runSettle settle_bounty
    simp [hst]
  · intro hst
    unfold runSettle settle_bounty
    simp [hst]
  · intro hst hsig
    unfold runSettle settle_bounty
    simp [hst, hsig]
  · intro hst hsig hrep
    unfold runSettle settle_bounty
    simp [hst, hsig, hrep]
  · intro st' hrun
    unfold runSettle at hrun
    split at hrun
    · rename_i b' r' e' a' hok
      obtain ⟨_, _, _, _, _, hb', hr', he', ha'⟩ := settle_bounty_ok_inv hok
      simp only [Prod.mk.injEq] at hrun
      rw [← hrun.1]
      exact ⟨hb', he', ha', by rw [hr'], by rw [hr']⟩
    · exact absurd hrun (by simp)
  · intro hst hsig hrep hov
    unfold runSettle settle_bounty
    simp only [hst, hsig, hrep]
    rcases hov with hov | hov
    · have hnone : u64checkedAdd st.reputation.successful_bounties 1 = none := by
        unfold u64checkedAdd
        exact if_neg (by omega)
      simp [hnone]
    · have hnone : u64checkedAdd st.reputation.total_earned st.escrowAmount = none := by
        unfold u64checkedAdd
        exact if_neg (by omega)
      cases hsb : u64checkedAdd st.reputation.successful_bounties 1 with
      | none => simp [hsb]
      | some s => simp [hsb, hnone]

/-- C7 witness: the concrete spec scenario — settling a Submitted bounty by
its creator pays the agent the full escrow and advances the counters, a second
settle on the now-Settled bounty fails with `BountyNotSubmitted`, a foreign
signer gets `UnauthorizedSettlement`, and a mismatched reputation record gets
`ReputationOwnerMismatch`. -/
theorem settle_bounty_rules_witness :
    ((SettleLedger.mk
        ⟨7, .WalletIntelligence, "find wallet", 1000, some [1, 2, 3], .Settled,
          42, 5⟩ ⟨9, 1, 1, 0, 1000, 4⟩ 0 1000).bounty =
      { (SettleLedger.mk
          ⟨7, .WalletIntelligence, "find wallet", 1000, some [1, 2, 3],
            .Submitted, 42, 5⟩ ⟨9, 1, 0, 0, 0, 4⟩ 1000 0).bounty with
        status := BountyStatus.Settled } ∧
      (SettleLedger.mk
        ⟨7, .WalletIntelligence, "find wallet", 1000, some [1, 2, 3], .Settled,
          42, 5⟩ ⟨9, 1, 1, 0, 1000, 4⟩ 0 1000).escrowAmount = 0 ∧
      (SettleLedger.mk
        ⟨7, .WalletIntelligence, "find wallet", 1000, some [1, 2, 3], .Settled,
          42, 5⟩ ⟨9, 1, 1, 0, 1000, 4⟩ 0 1000).agentAmount = 0 + 1000 ∧
      (SettleLedger.mk
        ⟨7, .WalletIntelligence, "find wallet", 1000, some [1, 2, 3], .Settled,
          42, 5⟩ ⟨9, 1, 1, 0, 1000, 4⟩ 0 1000).reputation.successful_bounties =
        0 + 1 ∧
      (SettleLedger.mk
        ⟨7, .WalletIntelligence, "find wallet", 1000, some [1, 2, 3], .Settled,
          42, 5⟩ ⟨9, 1, 1, 0, 1000, 4⟩ 0 1000).reputation.total_earned =
        0 + 1000) ∧
    runSettle (SettleLedger.mk
        ⟨7, .WalletIntelligence, "find wallet", 1000, some [1, 2, 3], .Settled,
          42, 5⟩ ⟨9, 1, 1, 0, 1000, 4⟩ 0 1000) 42 9 =
      (SettleLedger.mk
        ⟨7, .WalletIntelligence, "find wallet", 1000, some [1, 2, 3], .Settled,
          42, 5⟩ ⟨9, 1, 1, 0, 1000, 4⟩ 0 1000,
        some ProgError.BountyNotSubmitted) ∧
    runSettle (SettleLedger.mk
        ⟨7, .WalletIntelligence, "find wallet", 1000, some [1, 2, 3],
          .Submitted, 42, 5⟩ ⟨9, 1, 0, 0, 0, 4⟩ 1000 0) 8 9 =
      (SettleLedger.mk
        ⟨7, .WalletIntelligence, "find wallet", 1000, some [1, 2, 3],
          .Submitted, 42, 5⟩ ⟨9, 1, 0, 0, 0, 4⟩ 1000 0,
        some ProgError.UnauthorizedSettlement) ∧
    runSettle (SettleLedger.mk
        ⟨7, .WalletIntelligence, "find wallet", 1000, some [1, 2, 3],
          .Submitted, 42, 5⟩ ⟨9, 1, 0, 0, 0, 4⟩ 1000 0) 42 11 =
      (SettleLedger.mk
        ⟨7, .WalletIntelligence, "find wallet", 1000, some [1, 2, 3],
          .Submitted, 42, 5⟩ ⟨9, 1, 0, 0, 0, 4⟩ 1000 0,
        some ProgError.ReputationOwnerMismatch) :=
  ⟨(settle_bounty_rules (SettleLedger.mk
        ⟨7, .WalletIntelligence, "find wallet", 1000, some [1, 2, 3],
          .Submitted, 42, 5⟩ ⟨9, 1, 0, 0, 0, 4⟩ 1000 0) 42 9).2.2.2.2.1
      _ (by rfl),
    (settle_bounty_rules (SettleLedger.mk
        ⟨7, .WalletIntelligence, "find wallet", 1000, some [1, 2, 3], .Settled,
          42, 5⟩ ⟨9, 1, 1, 0, 1000, 4⟩ 0 1000) 42 9).2.1 (by decide),
    (settle_bounty_rules (SettleLedger.mk
        ⟨7, .WalletIntelligence, "find wallet", 1000, some [1, 2, 3],
          .Submitted, 42, 5⟩ ⟨9, 1, 0, 0, 0, 4⟩ 1000 0) 8 9).2.2.1
      (by decide) (by decide),
    (settle_bounty_rules (SettleLedger.mk
        ⟨7, .WalletIntelligence, "find wallet", 1000, some [1, 2, 3],
          .Submitted, 42, 5⟩ ⟨9, 1, 0, 0, 0, 4⟩ 1000 0) 42 11).2.2.2.1
      (by decide) (by decide) (by decide)⟩

/-- C4: with the attestation checks and oracle gate satisfied (a non-empty
oracle account is supplied, so the gate passes for every description), a
successful `SubmitSolution` by an agent with no reputation record creates one
with score exactly 1; with an existing record owned by the signer the score
becomes exactly old + 1, and the transaction fails with
`ReputationScoreOverflow` instead of wrapping when the score is at `u64::MAX`;
a record stored for a different (real) agent is never mutated — the
transaction fails with `ReputationOwnerMismatch` and reports the pre-state. -/
theorem reputation_update_rules (st : SubmitLedger) (signer : Pubkey)
    (att : Attestation) (o : AccountInfo) (h : SolutionHash) (bump : Nat)
    (hst : st.bounty.status = BountyStatus.Open)
    (hsh : st.bounty.solution_hash = none) (hagent : att.agent = signer)
    (hhash : att.solution_hash = h) (hdata : o.dataLen ≠ 0) :
    (st.reputation = none →
      runSubmit st signer att (some o) h bump =
        (⟨{ st.bounty with solution_hash := some h
                           status := BountyStatus.Submitted },
          some { agent := signer, score := 1, successful_bounties := 0
                 failed_bounties := 0, total_earned := 0, bump := bump }⟩,
          none)) ∧
    (∀ r, st.reputation = some r → r.agent = signer → r.agent ≠ 0 →
      r.score + 1 ≤ U64_MAX →
      runSubmit st signer att (some o) h bump =
        (⟨{ st.bounty with solution_hash := some h
                           status := BountyStatus.Submitted },
          some { r with score := r.score + 1 }⟩, none)) ∧
    (∀ r, st.reputation = some r → r.agent = signer → r.agent ≠ 0 →
      U64_MAX < r.score + 1 →
      runSubmit st signer att (some o) h bump =
        (st, some ProgError.ReputationScoreOverflow)) ∧
    (∀ r, st.reputation = some r → r.agent ≠ signer → r.agent ≠ 0 →
      runSubmit st signer att (some o) h bump =
        (st, some ProgError.ReputationOwnerMismatch)) := by
  refine ⟨?_, ?_, ?_, ?_⟩
  · intro hrep
    unfold runSubmit submit_solution
    simp [hst, hsh, hagent, hhash, hrep, oracleEmpty, hdata, zeroReputation]
  · intro r hrep hown hnz hle
    unfold runSubmit submit_solution
    have hnz' : signer ≠ 0 := by rw [← hown]; exact hnz
    have hadd : u64checkedAdd r.score 1 = some (r.score + 1) := by
      unfold u64checkedAdd
      exact if_pos hle
    simp [hst, hsh, hagent, hhash, hrep, oracleEmpty, hdata, hown, hnz', hadd]
  · intro r hrep hown hnz hov
    unfold runSubmit submit_solution
    have hnz' : signer ≠ 0 := by rw [← hown]; exact hnz
    have hadd : u64checkedAdd r.score 1 = none := by
      unfold u64checkedAdd
      exact if_neg (by omega)
    simp [hst, hsh, hagent, hhash, hrep, oracleEmpty, hdata, hown, hnz', hadd]
  · intro r hrep hown hnz
    unfold runSubmit submit_solution
    simp [hst, hsh, hagent, hhash, hrep, oracleEmpty, hdata, hown, hnz]

/-- C4 witness: concretely, a first submission creates a score-1 record, a
second submission by the same agent raises it to 2, a record at `u64::MAX`
aborts with `ReputationScoreOverflow`, and a foreign record aborts with
`ReputationOwnerMismatch`, both aborts reporting the pre-state. -/
theorem reputation_update_rules_witness :
    runSubmit (SubmitLedger.mk
        ⟨7, .WalletIntelligence, "find wallet", 1000, none, .Open, 42, 5⟩ none)
        9 ⟨1, [1, 2, 3], 0, 9, false, 3⟩ (some ⟨55, 64⟩) [1, 2, 3] 4 =
      (⟨⟨7, .WalletIntelligence, "find wallet", 1000, some [1, 2, 3],
          .Submitted, 42, 5⟩, some ⟨9, 1, 0, 0, 0, 4⟩⟩, none) ∧
    runSubmit (SubmitLedger.mk
        ⟨8, .WalletIntelligence, "find wallet", 1000, none, .Open, 42, 5⟩
        (some ⟨9, 1, 0, 0, 0, 4⟩))
        9 ⟨1, [1, 2, 3], 0, 9, false, 3⟩ (some ⟨55, 64⟩) [1, 2, 3] 4 =
      (⟨⟨8, .WalletIntelligence, "find wallet", 1000, some [1, 2, 3],
          .Submitted, 42, 5⟩, some ⟨9, 2, 0, 0, 0, 4⟩⟩, none) ∧
    runSubmit (SubmitLedger.mk
        ⟨8, .WalletIntelligence, "find wallet", 1000, none, .Open, 42, 5⟩
        (some ⟨9, 2 ^ 64 - 1, 0, 0, 0, 4⟩))
        9 ⟨1, [1, 2, 3], 0, 9, false, 3⟩ (some ⟨55, 64⟩) [1, 2, 3] 4 =
      (⟨⟨8, .WalletIntelligence, "find wallet", 1000, none, .Open, 42, 5⟩,
          some ⟨9, 2 ^ 64 - 1, 0, 0, 0, 4⟩⟩,
        some ProgError.ReputationScoreOverflow) ∧
    runSubmit (SubmitLedger.mk
        ⟨8, .WalletIntelligence, "find wallet", 1000, none, .Open, 42, 5⟩
        (some ⟨11, 1, 0, 0, 0, 4⟩))
        9 ⟨1, [1, 2, 3], 0, 9, false, 3⟩ (some ⟨55, 64⟩) [1, 2, 3] 4 =
      (⟨⟨8, .WalletIntelligence, "find wallet", 1000, none, .Open, 42, 5⟩,
          some ⟨11, 1, 0, 0, 0, 4⟩⟩,
        some ProgError.ReputationOwnerMismatch) :=
  ⟨(reputation_update_rules _ 9 _ ⟨55, 64⟩ _ 4 (by decide) (by decide)
        (by decide) (by decide) (by decide)).1 rfl,
    (reputation_update_rules _ 9 _ ⟨55, 64⟩ _ 4 (by decide) (by decide)
        (by decide) (by decide) (by decide)).2.1
      ⟨9, 1, 0, 0, 0, 4⟩ rfl (by decide) (by decide) (by decide),
    (reputation_update_rules _ 9 _ ⟨55, 64⟩ _ 4 (by decide) (by decide)
        (by decide) (by decide) (by decide)).2.2.1
      ⟨9, 2 ^ 64 - 1, 0, 0, 0, 4⟩ rfl (by decide) (by decide) (by decide),
    (reputation_update_rules _ 9 _ ⟨55, 64⟩ _ 4 (by decide) (by decide)
        (by decide) (by decide) (by decide)).2.2.2
      ⟨11, 1, 0, 0, 0, 4⟩ rfl (by decide) (by decide)⟩

/-- C5: with the attestation checks satisfied, a `SubmitSolution` against a
bounty whose description (lowercased) contains the price trigger term
`"price"` fails with `OracleVerificationFailed` when no oracle account is
supplied, and also when the supplied oracle account is empty; when the
description contains no trigger term at all, the call succeeds with no oracle
account supplied. -/
theorem oracle_gate_price_trigger (st : SubmitLedger) (signer : Pubkey)
    (att : Attestation) (h : SolutionHash) (bump : Nat)
    (hst : st.bounty.status = BountyStatus.Open)
    (hsh : st.bounty.solution_hash = none) (hagent : att.agent = signer)
    (hhash : att.solution_hash = h) :
    (strContainsSub (toLowerString st.bounty.description) "price" = true →
      runSubmit st signer att none h bump =
        (st, some ProgError.OracleVerificationFailed)) ∧
    (∀ o : AccountInfo,
      strContainsSub (toLowerString st.bounty.description) "price" = true →
      o.dataLen = 0 →
      runSubmit st signer att (some o) h bump =
        (st, some ProgError.OracleVerificationFailed)) ∧
    (strContainsSub (toLowerString st.bounty.description) "oracle" = false →
      strContainsSub (toLowerString st.bounty.description) "switchboard" = false →
      strContainsSub (toLowerString st.bounty.description) "price" = false →
      st.reputation = none →
      runSubmit st signer att none h bump =
        (⟨{ st.bounty with solution_hash := some h
                           status := BountyStatus.Submitted },
          some { agent := signer, score := 1, successful_bounties := 0
                 failed_bounties := 0, total_earned := 0, bump := bump }⟩,
          none)) := by
  refine ⟨?_, ?_, ?_⟩
  · intro hprice
    unfold runSubmit submit_solution
    simp [hst, hsh, hagent, hhash, hprice]
  · intro o hprice hdata
    unfold runSubmit submit_solution
    simp [hst, hsh, hagent, hhash, hprice, oracleEmpty, hdata]
  · intro h1 h2 h3 hrep
    unfold runSubmit submit_solution
    simp [hst, hsh, hagent, hhash, h1, h2, h3, hrep, zeroReputation]

/-- C5 witness: concretely, a description containing "Price" with no oracle
account fails with `OracleVerificationFailed` (likewise with an empty oracle
account), while a trigger-free description succeeds with no oracle account. -/
theorem oracle_gate_price_trigger_witness :
    runSubmit (SubmitLedger.mk
        ⟨7, .TokenScreening, "Track the Price of SOL", 1000, none, .Open, 42, 5⟩
        none) 9 ⟨1, [1, 2, 3], 0, 9, false, 3⟩ none [1, 2, 3] 4 =
      (⟨⟨7, .TokenScreening, "Track the Price of SOL", 1000, none, .Open, 42, 5⟩,
          none⟩, some ProgError.OracleVerificationFailed) ∧
    runSubmit (SubmitLedger.mk
        ⟨7, .TokenScreening, "Track the Price of SOL", 1000, none, .Open, 42, 5⟩
        none) 9 ⟨1, [1, 2, 3], 0, 9, false, 3⟩ (some ⟨55, 0⟩) [1, 2, 3] 4 =
      (⟨⟨7, .TokenScreening, "Track the Price of SOL", 1000, none, .Open, 42, 5⟩,
          none⟩, some ProgError.OracleVerificationFailed) ∧
    runSubmit (SubmitLedger.mk
        ⟨7, .WalletIntelligence, "find wallet", 1000, none, .Open, 42, 5⟩
        none) 9 ⟨1, [1, 2, 3], 0, 9, false, 3⟩ none [1, 2, 3] 4 =
      (⟨⟨7, .WalletIntelligence, "find wallet", 1000, some [1, 2, 3],
          .Submitted, 42, 5⟩, some ⟨9, 1, 0, 0, 0, 4⟩⟩, none) :=
  ⟨(oracle_gate_price_trigger _ 9 _ _ 4 (by decide) (by decide) (by decide)
        (by decide)).1 (by decide),
    (oracle_gate_price_trigger _ 9 _ _ 4 (by decide) (by decide) (by decide)
        (by decide)).2.1 ⟨55, 0⟩ (by decide) (by decide),
    (oracle_gate_price_trigger _ 9 _ _ 4 (by decide) (by decide) (by decide)
        (by decide)).2.2 (by decide) (by decide) (by decide) rfl⟩

/-- C10: with the attestation checks satisfied and no oracle account
supplied, a first-time `SubmitSolution` fails with `OracleVerificationFailed`
exactly when the lowercased description contains one of the three substrings
"oracle", "switchboard", "price" — and succeeds whenever it contains none of
them. -/
theorem oracle_trigger_terms (st : SubmitLedger) (signer : Pubkey)
    (att : Attestation) (h : SolutionHash) (bump : Nat)
    (hst : st.bounty.status = BountyStatus.Open)
    (hsh : st.bounty.solution_hash = none) (hagent : att.agent = signer)
    (hhash : att.solution_hash = h) (hrep : st.reputation = none) :
    (runSubmit st signer att none h bump =
        (st, some ProgError.OracleVerificationFailed) ↔
      (strContainsSub (toLowerString st.bounty.description) "oracle" ||
        strContainsSub (toLowerString st.bounty.description) "switchboard" ||
        strContainsSub (toLowerString st.bounty.description) "price") = true) ∧
    ((strContainsSub (toLowerString st.bounty.description) "oracle" ||
        strContainsSub (toLowerString st.bounty.description) "switchboard" ||
        strContainsSub (toLowerString st.bounty.description) "price") = false →
      runSubmit st signer att none h bump =
        (⟨{ st.bounty with solution_hash := some h
                           status := BountyStatus.Submitted },
          some { agent := signer, score := 1, successful_bounties := 0
                 failed_bounties := 0, total_earned := 0, bump := bump }⟩,
          none)) := by
  have hsucc : (strContainsSub (toLowerString st.bounty.description) "oracle" ||
      strContainsSub (toLowerString st.bounty.description) "switchboard" ||
      strContainsSub (toLowerString st.bounty.description) "price") = false →
      runSubmit st signer att none h bump =
        (⟨{ st.bounty with solution_hash := some h
                           status := BountyStatus.Submitted },
          some { agent := signer, score := 1, successful_bounties := 0
                 failed_bounties := 0, total_earned := 0, bump := bump }⟩,
          none) := by
    intro htrig
    simp only [Bool.or_eq_false_iff] at htrig
    unfold runSubmit submit_solution
    simp [hst, hsh, hagent, hhash, htrig.1.1, htrig.1.2, htrig.2, hrep,
      zeroReputation]
  refine ⟨⟨?_, ?_⟩, hsucc⟩
  · intro herr
    by_contra htrig
    rw [hsucc (Bool.not_eq_true _ ▸ htrig)] at herr
    exact absurd (congrArg Prod.snd herr) (by simp)
  · intro htrig
    unfold runSubmit submit_solution
    simp only [Bool.or_eq_true] at htrig
    rcases htrig with htrig | htrig
    · rcases htrig with htrig | htrig
      · simp [hst, hsh, hagent, hhash, htrig]
      · simp [hst, hsh, hagent, hhash, htrig]
    · simp [hst, hsh, hagent, hhash, htrig]

/-- C10 witness: a description mentioning only "Switchboard" (no price-related
wording) already requires an oracle account — the concrete call without one
fails with `OracleVerificationFailed` — while a trigger-free description does
not. -/
theorem oracle_trigger_terms_witness :
    runSubmit (SubmitLedger.mk
        ⟨7, .TokenScreening, "Integrate Switchboard feed", 1000, none, .Open,
          42, 5⟩ none) 9 ⟨1, [1, 2, 3], 0, 9, false, 3⟩ none [1, 2, 3] 4 =
      (⟨⟨7, .TokenScreening, "Integrate Switchboard feed", 1000, none, .Open,
          42, 5⟩, none⟩, some ProgError.OracleVerificationFailed) ∧
    runSubmit (SubmitLedger.mk
        ⟨7, .WalletIntelligence, "screen this token", 1000, none, .Open, 42, 5⟩
        none) 9 ⟨1, [1, 2, 3], 0, 9, false, 3⟩ none [1, 2, 3] 4 =
      (⟨⟨7, .WalletIntelligence, "screen this token", 1000, some [1, 2, 3],
          .Submitted, 42, 5⟩, some ⟨9, 1, 0, 0, 0, 4⟩⟩, none) :=
  ⟨(oracle_trigger_terms _ 9 _ _ 4 (by decide) (by decide) (by decide)
        (by decide) rfl).1.mpr (by decide),
    (oracle_trigger_terms _ 9 _ _ 4 (by decide) (by decide) (by decide)
        (by decide) rfl).2 (by decide)⟩

end BountyForge
